import Mathlib

/-!
Verification development for the ChestXray-AI-Diagnostics backend
(`src/backend/inference.py`, `src/backend/preprocessing.py`).

The Python source is shallowly embedded: the static registries become
association lists, the inference engine becomes explicit state passing
over an `EngineState`, Python exceptions become an explicit `PyExn`
type threaded through `Except`, and the external libraries (file system,
`torch.load`, `load_state_dict`, `cv2.resize`, image decoding) are
parameters of the embedding, constrained only by their documented
contracts.
-/

namespace ChestXray

/-- One entry of `CONFIG_SETTINGS` in `inference.py`. -/
structure ConfigSetting where
  image_size : Nat
  learning_rate : ℚ
  loss : String
  type : String
deriving DecidableEq

/-- `CONFIG_SETTINGS` from `inference.py` (insertion order preserved). -/
def CONFIG_SETTINGS : List (String × ConfigSetting) :=
  [("config1", ⟨224, 1/10000, "focal", "CNN"⟩),
   ("config2", ⟨320, 3/10000, "focal", "CNN"⟩),
   ("config3", ⟨224, 1/10000, "focal", "CNN-Transformer"⟩),
   ("config4", ⟨224, 1/10000, "asymmetric", "CNN+CNN-Transformer"⟩)]

/-- `MODEL_FILENAME_MAP` from `inference.py`. -/
def MODEL_FILENAME_MAP : List (String × String) :=
  [("densenet121", "densenet121.pth"),
   ("efficientnet-b2", "efficientnet-b2.pth"),
   ("regnety-800mf", "regnety-800mf.pth"),
   ("efficientformerv2-s2", "efficientformerv2-s2.pth"),
   ("mobilevit-s", "mobilevit-s.pth")]

/-- `MODEL_CONFIG_COMPATIBILITY` from `inference.py`. -/
def MODEL_CONFIG_COMPATIBILITY : List (String × List String) :=
  [("densenet121", ["config1", "config2", "config4"]),
   ("efficientnet-b2", ["config1", "config2", "config4"]),
   ("regnety-800mf", ["config1", "config2", "config4"]),
   ("efficientformerv2-s2", ["config3", "config4"]),
   ("mobilevit-s", ["config3", "config4"])]

/-- `ModelInference.check_compatibility`: membership test against
`MODEL_CONFIG_COMPATIBILITY`, `false` when the model is absent. -/
def check_compatibility (model_name config : String) : Bool :=
  match MODEL_CONFIG_COMPATIBILITY.lookup model_name with
  | none => false
  | some compatible => compatible.contains config

/-- Python's `str` rendering of a list of strings,
e.g. `['config1', 'config2']`. -/
def pyStrList (l : List String) : String :=
  "[" ++ String.intercalate ", " (l.map (fun s => "\x27" ++ s ++ "\x27")) ++ "]"

/-- A Python value as far as checkpoint handling observes it: either a
`dict` (association list of string keys, as produced by `torch.load` for
checkpoint wrappers and for state dicts, which are themselves dicts) or
some non-dict object. -/
inductive PyValue where
  | dict (entries : List (String × PyValue)) : PyValue
  | obj (id : Nat) : PyValue

/-- The checkpoint-format normalization inlined in
`ModelInference.load_model` (`inference.py` lines 125-140): the value that
the code passes to `model.load_state_dict`.  A dict containing
`model_state_dict` yields that field; otherwise a dict containing
`state_dict` yields that field; otherwise the blob itself is used. -/
def normalizeCheckpoint (checkpoint : PyValue) : PyValue :=
  match checkpoint with
  | .dict entries =>
    match entries.lookup "model_state_dict" with
    | some v => v
    | none =>
      match entries.lookup "state_dict" with
      | some v => v
      | none => .dict entries
  | .obj i => .obj i

/-- The Python exceptions observable from this module. -/
inductive PyExn where
  | valueError (msg : String) : PyExn
  | fileNotFoundError (msg : String) : PyExn
  | runtimeError (msg : String) : PyExn
  | keyError (msg : String) : PyExn
deriving DecidableEq

/-- `str(e)` for the exceptions of `PyExn`. -/
def pyExnMsg : PyExn → String
  | .valueError m => m
  | .fileNotFoundError m => m
  | .runtimeError m => m
  | .keyError m => m

/-- The preprocessed image tensor: its shape list and the value at each
(batch, channel, row, column) index.  Pixel intensities are exact
rationals (the source divides 8-bit pixels by 255.0). -/
structure Tensor where
  shape : List Nat
  val : Nat → Nat → Nat → Nat → ℚ

/-- The mutable state of a `ModelInference` instance, instrumented for
the cache claims: `loaded_models` maps cache-key strings to model object
identities (fresh `Nat` ids stand for Python object identity), `nextId`
is the allocator for those ids, and `reads` logs every weight-file path
passed to `torch.load`, most recent first. -/
structure EngineState where
  loaded_models : List (String × Nat)
  nextId : Nat
  reads : List String
deriving DecidableEq

/-- The freshly constructed engine: empty cache, nothing read. -/
def initialState : EngineState := ⟨[], 0, []⟩

/-- The external world of one `ModelInference` instance, fixed at
construction plus the per-request stage oracles:
`fs` is `Path.exists`, `torchLoad` the deserialized blob at a path,
`applyOk` whether `model.load_state_dict` succeeds for a given
architecture and normalized blob (it raises `RuntimeError` otherwise),
`preprocessResult` the outcome of preprocessing the request's image,
`forward` the logits row produced by the model's forward pass, and the
`elapsed*` fields the values of `time.time() - start_time` read at each
return point. -/
structure Env where
  models_dir : String
  device : String
  fs : String → Bool
  torchLoad : String → PyValue
  applyOk : String → PyValue → Bool
  preprocessResult : Except PyExn Tensor
  forward : Nat → Tensor → Except PyExn (List ℝ)
  elapsedPre : ℝ
  elapsedInf : ℝ
  elapsedOk : ℝ

/-- `ModelInference.get_model_path`: validate the config and model ids,
build `models_dir / config / filename`, and require the file to exist. -/
def get_model_path (E : Env) (model_name config : String) :
    Except PyExn String :=
  match CONFIG_SETTINGS.lookup config with
  | none =>
    .error (.valueError ("Config \x27" ++ config ++ "\x27 not recognized. Available: "
      ++ pyStrList (CONFIG_SETTINGS.map Prod.fst)))
  | some _ =>
    match MODEL_FILENAME_MAP.lookup model_name with
    | none =>
      .error (.valueError ("Model \x27" ++ model_name ++ "\x27 not recognized. Available: "
        ++ pyStrList (MODEL_FILENAME_MAP.map Prod.fst)))
    | some filename =>
      let model_path := E.models_dir ++ "/" ++ config ++ "/" ++ filename
      if E.fs model_path then .ok model_path
      else
        .error (.fileNotFoundError ("Model file not found: " ++ model_path
          ++ "\nPlease ensure the model is trained and saved in the correct location."))

/-- The incompatibility message raised by `ModelInference.load_model`,
with the model's compatible configs rendered as a Python list. -/
def incompatMsg (model_name config : String) (compatible : List String) : String :=
  "Model \x27" ++ model_name ++ "\x27 is not compatible with \x27" ++ config ++ "\x27.\n"
  ++ "Compatible configs for " ++ model_name ++ ": " ++ pyStrList compatible ++ "\n"
  ++ "Config types:\n"
  ++ "  - config1: CNN models, 224x224, Focal Loss\n"
  ++ "  - config2: CNN models, 320x320, Focal Loss\n"
  ++ "  - config3: CNN-Transformer models, 224x224, Focal Loss\n"
  ++ "  - config4: All models, 224x224, Asymmetric Loss"

/-- `ModelInference.load_model`.  Consults the cache under the key
`f"{model_name}_{config}"`, then validates config, model and
compatibility, resolves the weight path via `get_model_path`, builds the
architecture (allocating a fresh object id), loads and normalizes the
checkpoint (logging the disk read), and applies it via
`load_state_dict`; on success the model is cached.  The returned pair is
(result-or-raised-exception, state after the call). -/
def load_model (E : Env) (σ : EngineState) (model_name config : String) :
    Except PyExn Nat × EngineState :=
  let cache_key := model_name ++ "_" ++ config
  match σ.loaded_models.lookup cache_key with
  | some mid => (.ok mid, σ)
  | none =>
    if (CONFIG_SETTINGS.lookup config).isNone then
      (.error (.valueError ("Invalid config \x27" ++ config ++ "\x27. Available: "
        ++ pyStrList (CONFIG_SETTINGS.map Prod.fst))), σ)
    else if (MODEL_FILENAME_MAP.lookup model_name).isNone then
      (.error (.valueError ("Invalid model \x27" ++ model_name ++ "\x27. Available: "
        ++ pyStrList (MODEL_FILENAME_MAP.map Prod.fst))), σ)
    else if ¬ check_compatibility model_name config then
      (.error (.valueError (incompatMsg model_name config
        ((MODEL_CONFIG_COMPATIBILITY.lookup model_name).getD []))), σ)
    else
      match get_model_path E model_name config with
      | .error e => (.error e, σ)
      | .ok model_path =>
        -- `get_model` builds a fresh architecture object, then
        -- `torch.load` reads the weight file from disk.
        let mid := σ.nextId
        let checkpoint := E.torchLoad model_path
        let σ1 : EngineState :=
          { σ with nextId := σ.nextId + 1, reads := model_path :: σ.reads }
        if E.applyOk model_name (normalizeCheckpoint checkpoint) then
          (.ok mid, { σ1 with loaded_models := (cache_key, mid) :: σ1.loaded_models })
        else
          (.error (.runtimeError
            ("Error(s) in loading state_dict for " ++ model_name)), σ1)

/-- The dictionary returned by `ModelInference.predict`: `error` is
`none` exactly when the source dict carries no `error` key. -/
structure PredictOutcome where
  success : Bool
  error : Option String
  results : List (String × ℝ)
  processing_time : ℝ
  model_name : String
  config : String
  image_size : Nat
  device : String

/-- The logistic sigmoid applied elementwise by
`torch.sigmoid(logits)`. -/
noncomputable def sigmoid (x : ℝ) : ℝ := 1 / (1 + Real.exp (-x))

/-- `ModelInference.predict`.  The load stage is guarded by
`except (ValueError, FileNotFoundError)`; any other exception raised by
`load_model` propagates (`Except.error`).  The bare subscript
`CONFIG_SETTINGS[config]` after a successful load is modelled by the
`keyError` branch.  Preprocessing and the forward pass are guarded by
`except Exception`, which `PyExn` is entirely contained in.  On success
the logits row is mapped through `sigmoid` and zipped positionally with
`diseases`. -/
noncomputable def predict (E : Env) (σ : EngineState)
    (model_name config : String) (diseases : List String) :
    Except PyExn PredictOutcome × EngineState :=
  match load_model E σ model_name config with
  | (.error e, σ1) =>
    match e with
    | .valueError msg =>
      (.ok { success := false, error := some msg, results := [],
             processing_time := 0, model_name := model_name, config := config,
             image_size := ((CONFIG_SETTINGS.lookup config).map
               ConfigSetting.image_size).getD 0,
             device := E.device }, σ1)
    | .fileNotFoundError msg =>
      (.ok { success := false, error := some msg, results := [],
             processing_time := 0, model_name := model_name, config := config,
             image_size := ((CONFIG_SETTINGS.lookup config).map
               ConfigSetting.image_size).getD 0,
             device := E.device }, σ1)
    | e => (.error e, σ1)
  | (.ok mid, σ1) =>
    match CONFIG_SETTINGS.lookup config with
    | none => (.error (.keyError config), σ1)
    | some cfg =>
      let img_size := cfg.image_size
      match E.preprocessResult with
      | .error e =>
        (.ok { success := false,
               error := some ("Image preprocessing failed: " ++ pyExnMsg e),
               results := [], processing_time := E.elapsedPre,
               model_name := model_name, config := config,
               image_size := img_size, device := E.device }, σ1)
      | .ok t =>
        match E.forward mid t with
        | .error e =>
          (.ok { success := false,
                 error := some ("Model inference failed: " ++ pyExnMsg e),
                 results := [], processing_time := E.elapsedInf,
                 model_name := model_name, config := config,
                 image_size := img_size, device := E.device }, σ1)
        | .ok logits =>
          (.ok { success := true, error := none,
                 results := diseases.zip (logits.map sigmoid),
                 processing_time := E.elapsedOk,
                 model_name := model_name, config := config,
                 image_size := img_size, device := E.device }, σ1)

/-- `ModelInference.clear_cache`: drops every cached model (the read log
is instrumentation, not engine state, and is preserved). -/
def clear_cache (σ : EngineState) : EngineState :=
  { σ with loaded_models := [] }

/-- A single-channel 8-bit image: height, width, and pixel intensity at
each (row, column). -/
structure Image where
  h : Nat
  w : Nat
  pix : Nat → Nat → Nat

/-- Every pixel fits in 8 bits. -/
def is8bit (img : Image) : Prop := ∀ i j, img.pix i j < 256

/-- A decoded `numpy` array as `cv2.imread`/`cv2.imdecode` returns it:
its shape list (`dims.length` is `ndim`), the value at each
(row, column, channel) index (channel 0 read for 2-D arrays), and
whether its dtype is `uint8`. -/
structure RawImage where
  dims : List Nat
  pix : Nat → Nat → Nat → Nat
  u8 : Bool

/-- Every raw sample fits in 8 bits. -/
def rawIs8bit (img : RawImage) : Prop := ∀ i j c, img.pix i j c < 256

/-- OpenCV's `borderInterpolate` for `BORDER_REFLECT_101` in closed
form: the triangle wave of period `2*(len-1)` that reflects an
out-of-range index into `[0, len)` without repeating the edge pixel
(single-pixel axes map everything to 0, as OpenCV's `len == 1` special
case does). -/
def refl101 (len : Nat) (p : ℤ) : Nat :=
  if len ≤ 1 then 0
  else
    let m : Nat := 2 * (len - 1)
    let q : Nat := (p.emod m).toNat
    if q < len then q else m - q

/-- `cv2.copyMakeBorder(img, top, bottom, left, right,
cv2.BORDER_REFLECT_101)`: every border pixel is an interior pixel at a
reflected index. -/
def copyMakeBorder (img : Image) (top bottom left right : Nat) : Image :=
  { h := top + img.h + bottom,
    w := left + img.w + right,
    pix := fun i j =>
      img.pix (refl101 img.h ((i : ℤ) - top)) (refl101 img.w ((j : ℤ) - left)) }

/-- The two interpolation modes `letterbox` selects between. -/
inductive Interp where
  | area : Interp
  | cubic : Interp
deriving DecidableEq

/-- The contract of `cv2.resize`: it produces exactly the requested
width and height and maps 8-bit input to 8-bit output.  The pixel values
it computes are interpolation-dependent and left abstract. -/
def resizeContract (resize : Image → Nat → Nat → Interp → Image) : Prop :=
  ∀ g nw nh ip, (resize g nw nh ip).w = nw ∧ (resize g nw nh ip).h = nh ∧
    (is8bit g → is8bit (resize g nw nh ip))

/-- Python's built-in `round` (round half to even) on exact values. -/
def pyRound (q : ℚ) : ℤ :=
  if q - ⌊q⌋ < 1/2 then ⌊q⌋
  else if 1/2 < q - ⌊q⌋ then ⌊q⌋ + 1
  else if ⌊q⌋ % 2 = 0 then ⌊q⌋ else ⌊q⌋ + 1

/-- `scale = size / max(h, w)` in `letterbox`. -/
def letterboxScale (h w size : Nat) : ℚ := (size : ℚ) / ((max h w : Nat) : ℚ)

/-- `new_w = max(1, int(round(w * scale)))` in `letterbox`. -/
def letterboxNewW (h w size : Nat) : Nat :=
  max 1 (pyRound ((w : ℚ) * letterboxScale h w size)).toNat

/-- `new_h = max(1, int(round(h * scale)))` in `letterbox`. -/
def letterboxNewH (h w size : Nat) : Nat :=
  max 1 (pyRound ((h : ℚ) * letterboxScale h w size)).toNat

/-- `top = pad_h // 2` in `letterbox` (Python floor division on the
possibly negative machine integer `pad_h = size - new_h`). -/
def letterboxPadTop (h w size : Nat) : ℤ :=
  Int.fdiv ((size : ℤ) - letterboxNewH h w size) 2

/-- `bottom = pad_h - pad_h // 2` in `letterbox`. -/
def letterboxPadBottom (h w size : Nat) : ℤ :=
  ((size : ℤ) - letterboxNewH h w size) - letterboxPadTop h w size

/-- `left = pad_w // 2` in `letterbox`. -/
def letterboxPadLeft (h w size : Nat) : ℤ :=
  Int.fdiv ((size : ℤ) - letterboxNewW h w size) 2

/-- `right = pad_w - pad_w // 2` in `letterbox`. -/
def letterboxPadRight (h w size : Nat) : ℤ :=
  ((size : ℤ) - letterboxNewW h w size) - letterboxPadLeft h w size

/-- `letterbox` from `preprocessing.py`, parametric in `cv2.resize`.
The Python pad amounts are machine integers that may in principle be
negative, so they are computed in `ℤ`; a negative pad would make
`cv2.copyMakeBorder` raise, which the `runtimeError` branch models
(unreachable for `size ≥ 1`). -/
def letterbox (resize : Image → Nat → Nat → Interp → Image)
    (gray : Image) (size : Nat) (pad_mode : String) : Except PyExn Image :=
  let scale := letterboxScale gray.h gray.w size
  let new_w := letterboxNewW gray.h gray.w size
  let new_h := letterboxNewH gray.h gray.w size
  let interp := if scale < 1 then Interp.area else Interp.cubic
  let resized := resize gray new_w new_h interp
  let top := letterboxPadTop gray.h gray.w size
  let bottom := letterboxPadBottom gray.h gray.w size
  let left := letterboxPadLeft gray.h gray.w size
  let right := letterboxPadRight gray.h gray.w size
  if pad_mode = "reflect" then
    if 0 ≤ top ∧ 0 ≤ left then
      .ok (copyMakeBorder resized top.toNat bottom.toNat left.toNat right.toNat)
    else .error (.runtimeError "copyMakeBorder: negative border size")
  else .error (.valueError "pad_mode must be \x27reflect\x27")

/-- The BGR→RGB→grayscale conversion
(`cv2.cvtColor(..., COLOR_BGR2RGB)` then `COLOR_RGB2GRAY`), using
OpenCV's fixed-point luma: with the decoded channels in BGR order,
`Y = (R*4899 + G*9617 + B*1868 + 8192) >> 14`. -/
def bgrToGray (img : RawImage) : Image :=
  { h := img.dims.getD 0 0,
    w := img.dims.getD 1 0,
    pix := fun i j =>
      (4899 * img.pix i j 2 + 9617 * img.pix i j 1 + 1868 * img.pix i j 0
        + 8192) / 16384 }

/-- The grayscale branch shared verbatim by `preprocess_image` and
`preprocess_image_from_bytes`: `ndim == 3 and shape[2] == 3` converts
via luma, `ndim == 2` passes through, every other shape raises
`ValueError`. -/
def toGray (img : RawImage) : Except PyExn Image :=
  if img.dims.length = 3 ∧ img.dims.get? 2 = some 3 then
    .ok (bgrToGray img)
  else if img.dims.length = 2 then
    .ok { h := img.dims.getD 0 0, w := img.dims.getD 1 0,
          pix := fun i j => img.pix i j 0 }
  else
    .error (.valueError "Image must be H×W or H×W×3")

/-- The tail of both preprocessing functions: stack the grayscale plane
three times, divide by 255, transpose to channel-first and prepend the
batch dimension.  All three channels hold the same plane, so the value
function ignores the batch and channel indices. -/
def tensorOfGray (g : Image) : Tensor :=
  { shape := [1, 3, g.h, g.w],
    val := fun _n _c i j => (g.pix i j : ℚ) / 255 }

/-- `preprocess_image` from `preprocessing.py`, parametric in the
external `cv2` operations: `imread` is the decoded array (or `none`),
`normMinMax` is `cv2.normalize(..., NORM_MINMAX)` + `uint8` cast applied
to non-8-bit input, `resize` is `cv2.resize`. -/
def preprocess_image (resize : Image → Nat → Nat → Interp → Image)
    (normMinMax : RawImage → RawImage) (imread : Option RawImage)
    (image_path : String) (size : Nat) (pad_mode : String) :
    Except PyExn Tensor :=
  match imread with
  | none => .error (.fileNotFoundError ("Cannot read image: " ++ image_path))
  | some img0 =>
    let img := if img0.u8 then img0 else normMinMax img0
    match toGray img with
    | .error e => .error e
    | .ok gray =>
      match letterbox resize gray size pad_mode with
      | .error e => .error e
      | .ok padded_gray => .ok (tensorOfGray padded_gray)

/-- `preprocess_image_from_bytes` from `preprocessing.py`: identical to
`preprocess_image` except decode failure raises `ValueError`. -/
def preprocess_image_from_bytes (resize : Image → Nat → Nat → Interp → Image)
    (normMinMax : RawImage → RawImage) (imdecode : Option RawImage)
    (size : Nat) (pad_mode : String) : Except PyExn Tensor :=
  match imdecode with
  | none => .error (.valueError "Cannot decode image from bytes")
  | some img0 =>
    let img := if img0.u8 then img0 else normMinMax img0
    match toGray img with
    | .error e => .error e
    | .ok gray =>
      match letterbox resize gray size pad_mode with
      | .error e => .error e
      | .ok padded_gray => .ok (tensorOfGray padded_gray)

/-- The engine states reachable from construction through its public
operations.  `predict`'s only state change is the `load_model` it
performs, so the `load` step also covers `predict`. -/
inductive Reachable : EngineState → Prop where
  | init : Reachable initialState
  | load (E : Env) (m c : String) (σ σ' : EngineState) (r : Except PyExn Nat) :
      Reachable σ → load_model E σ m c = (r, σ') → Reachable σ'
  | clear (σ : EngineState) : Reachable σ → Reachable (clear_cache σ)

/-! ## Concrete environments for witnesses and counterexamples -/

/-- A placeholder preprocessed tensor. -/
def trivTensor : Tensor := ⟨[], fun _ _ _ _ => 0⟩

/-- A world where every external operation succeeds: every path exists,
checkpoints apply cleanly, preprocessing yields a tensor, and the
forward pass returns six zero logits (`num_classes = 6`). -/
def envAllGood : Env :=
  { models_dir := "./models", device := "cpu",
    fs := fun _ => true, torchLoad := fun _ => .obj 0,
    applyOk := fun _ _ => true,
    preprocessResult := .ok trivTensor,
    forward := fun _ _ => .ok [0, 0, 0, 0, 0, 0],
    elapsedPre := 0, elapsedInf := 0, elapsedOk := 0 }

/-- The same world with every weight file absent. -/
def envNoFile : Env := { envAllGood with fs := fun _ => false }

/-- The same world where the weight file exists but its parameters
mismatch the built architecture, so `load_state_dict` raises
`RuntimeError` (the WeightLoadError case). -/
def envBadWeights : Env := { envAllGood with applyOk := fun _ _ => false }

/-- The engine state after one successful
`load_model "densenet121" "config1"` from `initialState` in
`envAllGood`. -/
def stateAfterFirstLoad : EngineState :=
  ⟨[("densenet121_config1", 0)], 1, ["./models/config1/densenet121.pth"]⟩

/-- A concrete resizer satisfying `cv2.resize`'s contract, used to
instantiate the letterbox theorems at concrete inputs. -/
def resizeStub : Image → Nat → Nat → Interp → Image :=
  fun _ nw nh _ => { h := nh, w := nw, pix := fun _ _ => 0 }

/-- A concrete decoded image: a 512×384 (width × height) black
three-channel 8-bit array. -/
def rawSample : RawImage := ⟨[384, 512, 3], fun _ _ _ => 0, true⟩

/-- A (model, config) pair that passes all three of `load_model`'s
validations: registered model, registered config, compatible pairing. -/
def validPair (m c : String) : Prop :=
  (MODEL_FILENAME_MAP.lookup m).isSome = true ∧
    (CONFIG_SETTINGS.lookup c).isSome = true ∧
    check_compatibility m c = true

instance (m c : String) : Decidable (validPair m c) := by
  unfold validPair
  infer_instance

/-- Every key of the cache decomposes as a registered, compatible
(model, config) pair. -/
def cacheValid (σ : EngineState) : Prop :=
  ∀ k mid, (k, mid) ∈ σ.loaded_models →
    ∃ m c, k = m ++ "_" ++ c ∧ validPair m c

/-! ## Case lemmas for `load_model` -/

/-- A cache hit returns the cached id and leaves the state alone. -/
theorem load_model_hit (E : Env) (σ : EngineState) (m c : String) (mid : Nat)
    (h : σ.loaded_models.lookup (m ++ "_" ++ c) = some mid) :
    load_model E σ m c = (.ok mid, σ) := by
  simp only [load_model]
  rw [h]

/-- On a cache miss with a registered, compatible pair whose weight file
is absent, `load_model` raises `FileNotFoundError` naming the path. -/
theorem load_model_miss_nofile (E : Env) (σ : EngineState) (m c fn : String)
    (cfg : ConfigSetting)
    (hmiss : σ.loaded_models.lookup (m ++ "_" ++ c) = none)
    (hc : CONFIG_SETTINGS.lookup c = some cfg)
    (hm : MODEL_FILENAME_MAP.lookup m = some fn)
    (hcompat : check_compatibility m c = true)
    (hfs : E.fs (E.models_dir ++ "/" ++ c ++ "/" ++ fn) = false) :
    load_model E σ m c =
      (.error (.fileNotFoundError ("Model file not found: "
        ++ (E.models_dir ++ "/" ++ c ++ "/" ++ fn)
        ++ "\nPlease ensure the model is trained and saved in the correct location.")),
       σ) := by
  simp only [load_model, get_model_path]
  rw [hmiss]
  simp [hc, hm, hcompat, hfs]

/-- On a cache miss with an incompatible (but registered) pair,
`load_model` raises the incompatibility `ValueError` without consulting
the file system. -/
theorem load_model_miss_incompat (E : Env) (σ : EngineState) (m c fn : String)
    (cfg : ConfigSetting)
    (hmiss : σ.loaded_models.lookup (m ++ "_" ++ c) = none)
    (hc : CONFIG_SETTINGS.lookup c = some cfg)
    (hm : MODEL_FILENAME_MAP.lookup m = some fn)
    (hcompat : check_compatibility m c = false) :
    load_model E σ m c =
      (.error (.valueError (incompatMsg m c
        ((MODEL_CONFIG_COMPATIBILITY.lookup m).getD []))), σ) := by
  simp only [load_model]
  rw [hmiss]
  simp [hc, hm, hcompat]

/-- Successful loads leave the freshly loaded id in the cache under the
key, and read at most one weight file. -/
theorem load_model_ok_cached (E : Env) (σ : EngineState) (m c : String)
    (mid : Nat) (σ' : EngineState)
    (h : load_model E σ m c = (.ok mid, σ')) :
    σ'.loaded_models.lookup (m ++ "_" ++ c) = some mid ∧
      (σ'.reads = σ.reads ∨ ∃ p, σ'.reads = p :: σ.reads) := by
  simp only [load_model] at h
  cases hmiss : σ.loaded_models.lookup (m ++ "_" ++ c) with
  | some mid0 =>
    rw [hmiss] at h
    injection h with h1 h2
    injection h1 with h1
    subst h1; subst h2
    exact ⟨hmiss, Or.inl rfl⟩
  | none =>
    rw [hmiss] at h
    split_ifs at h with h1 h2 h3
    · exact absurd (congrArg Prod.fst h) (by simp)
    · exact absurd (congrArg Prod.fst h) (by simp)
    · cases hgp : get_model_path E m c with
      | error e =>
        rw [hgp] at h
        exact absurd (congrArg Prod.fst h) (by simp)
      | ok model_path =>
        rw [hgp] at h
        dsimp only [] at h
        by_cases hap : E.applyOk m (normalizeCheckpoint (E.torchLoad model_path))
        · rw [if_pos hap] at h
          injection h with ha hb
          injection ha with ha
          subst ha
          rw [← hb]
          refine ⟨?_, Or.inr ⟨model_path, rfl⟩⟩
          simp [List.lookup]
        · rw [if_neg hap] at h
          exact absurd (congrArg Prod.fst h) (by simp)
    · exact absurd (congrArg Prod.fst h) (by simp)

/-! ## Claim C5: compatibility lookup -/

/-- C5: `check_compatibility model config` returns `true` iff `model` is
a key of `MODEL_CONFIG_COMPATIBILITY` and `config` appears in that
model's compatible-configs list, and it returns `false` (for every
config) when the model is absent.  It is a total boolean function, so it
never raises. -/
theorem check_compatibility_iff :
    (∀ model config : String,
      check_compatibility model config = true ↔
        ∃ compatible, MODEL_CONFIG_COMPATIBILITY.lookup model = some compatible ∧
          config ∈ compatible) ∧
    (∀ model config : String,
      MODEL_CONFIG_COMPATIBILITY.lookup model = none →
        check_compatibility model config = false) := by
  constructor
  · intro model config
    unfold check_compatibility
    cases h : MODEL_CONFIG_COMPATIBILITY.lookup model with
    | none => simp [h]
    | some compatible => simp [h, List.contains, List.elem_iff]
  · intro model config h
    unfold check_compatibility
    rw [h]

/-- Witness for C5 at concrete inputs: `densenet121`/`config1` is
compatible, and the unregistered model name `resnet50` is rejected for
every config. -/
theorem check_compatibility_iff_witness :
    check_compatibility "densenet121" "config1" = true ∧
    check_compatibility "resnet50" "config4" = false :=
  ⟨(check_compatibility_iff.1 "densenet121" "config1").mpr
      ⟨["config1", "config2", "config4"], rfl, by decide⟩,
    check_compatibility_iff.2 "resnet50" "config4" rfl⟩

/-! ## Claim C6: checkpoint-format normalization -/

/-- C6: `load_model` normalizes every loaded weight blob by a three-way
rule before passing it to `load_state_dict`: a mapping containing the
key `model_state_dict` contributes that field; otherwise a mapping
containing `state_dict` contributes that field; otherwise (a mapping
without either key, or a non-mapping blob) the blob itself is applied
directly.  `normalizeCheckpoint` is exactly the value `load_model` hands
to `load_state_dict`. -/
theorem normalizeCheckpoint_three_way :
    (∀ (entries : List (String × PyValue)) (v : PyValue),
        entries.lookup "model_state_dict" = some v →
        normalizeCheckpoint (.dict entries) = v) ∧
    (∀ (entries : List (String × PyValue)) (v : PyValue),
        entries.lookup "model_state_dict" = none →
        entries.lookup "state_dict" = some v →
        normalizeCheckpoint (.dict entries) = v) ∧
    (∀ entries : List (String × PyValue),
        entries.lookup "model_state_dict" = none →
        entries.lookup "state_dict" = none →
        normalizeCheckpoint (.dict entries) = .dict entries) ∧
    (∀ i : Nat, normalizeCheckpoint (.obj i) = .obj i) := by
  refine ⟨?_, ?_, ?_, ?_⟩
  · intro entries v h
    simp [normalizeCheckpoint, h]
  · intro entries v h1 h2
    simp [normalizeCheckpoint, h1, h2]
  · intro entries h1 h2
    simp [normalizeCheckpoint, h1, h2]
  · intro i
    rfl

/-- Witness for C6 at concrete blobs: a wrapper dict with
`model_state_dict`, a wrapper with only `state_dict`, a bare parameter
dict, and a non-dict blob. -/
theorem normalizeCheckpoint_three_way_witness :
    normalizeCheckpoint (.dict [("epoch", .obj 3), ("model_state_dict", .obj 7)])
        = .obj 7 ∧
    normalizeCheckpoint (.dict [("state_dict", .obj 5)]) = .obj 5 ∧
    normalizeCheckpoint (.dict [("conv.weight", .obj 1)])
        = .dict [("conv.weight", .obj 1)] ∧
    normalizeCheckpoint (.obj 9) = .obj 9 :=
  ⟨normalizeCheckpoint_three_way.1 _ _ rfl,
    normalizeCheckpoint_three_way.2.1 _ _ rfl rfl,
    normalizeCheckpoint_three_way.2.2.1 _ rfl rfl,
    normalizeCheckpoint_three_way.2.2.2 9⟩

/-! ## Claim C9: the grayscale step -/

/-- C9: the grayscale step shared by `preprocess_image` and
`preprocess_image_from_bytes` is total over decoded images with exactly
three cases: a 3-dimensional array with 3 channels is converted
BGR→RGB→grayscale (luma formula, `bgrToGray`); a 2-dimensional array
passes through unchanged; and it raises the `ValueError` "Image must be
H×W or H×W×3" exactly on every other shape. -/
theorem toGray_cases :
    ∀ img : RawImage,
      ((∃ e, toGray img = .error e) ↔
        ¬ ((img.dims.length = 3 ∧ img.dims.get? 2 = some 3) ∨
            img.dims.length = 2)) ∧
      (img.dims.length = 3 → img.dims.get? 2 = some 3 →
        toGray img = .ok (bgrToGray img)) ∧
      (img.dims.length = 2 →
        toGray img = .ok { h := img.dims.getD 0 0, w := img.dims.getD 1 0,
                           pix := fun i j => img.pix i j 0 }) ∧
      (∀ e, toGray img = .error e →
        e = .valueError "Image must be H×W or H×W×3") := by
  intro img
  refine ⟨?_, ?_, ?_, ?_⟩
  · unfold toGray
    by_cases h3 : img.dims.length = 3 ∧ img.dims.get? 2 = some 3
    · rw [if_pos h3]
      exact ⟨fun ⟨_, he⟩ => (nomatch he), fun hn => absurd (Or.inl h3) hn⟩
    · rw [if_neg h3]
      by_cases h2 : img.dims.length = 2
      · rw [if_pos h2]
        exact ⟨fun ⟨_, he⟩ => (nomatch he), fun hn => absurd (Or.inr h2) hn⟩
      · rw [if_neg h2]
        exact ⟨fun _ hor => hor.elim h3 h2, fun _ => ⟨_, rfl⟩⟩
  · intro ha hb
    unfold toGray
    rw [if_pos ⟨ha, hb⟩]
  · intro h2
    have h3 : ¬ (img.dims.length = 3 ∧ img.dims.get? 2 = some 3) :=
      fun hc => absurd hc.1 (by omega)
    unfold toGray
    rw [if_neg h3, if_pos h2]
  · intro e he
    unfold toGray at he
    by_cases h3 : img.dims.length = 3 ∧ img.dims.get? 2 = some 3
    · rw [if_pos h3] at he
      exact nomatch he
    · rw [if_neg h3] at he
      by_cases h2 : img.dims.length = 2
      · rw [if_pos h2] at he
        exact nomatch he
      · rw [if_neg h2] at he
        exact (Except.error.inj he).symm

/-- Witness for C9 at concrete shapes: a 384×512 BGR image converts via
luma, a 384×512 single-channel image passes through, and a 4-channel
image is rejected with the validation error. -/
theorem toGray_cases_witness :
    toGray ⟨[384, 512, 3], fun _ _ _ => 0, true⟩
        = .ok (bgrToGray ⟨[384, 512, 3], fun _ _ _ => 0, true⟩) ∧
    toGray ⟨[384, 512], fun _ _ _ => 0, true⟩
        = .ok { h := 384, w := 512, pix := fun _ _ => 0 } ∧
    (∃ e, toGray ⟨[384, 512, 4], fun _ _ _ => 0, true⟩ = .error e) ∧
    (∀ e, toGray ⟨[384, 512, 4], fun _ _ _ => 0, true⟩ = .error e →
      e = .valueError "Image must be H×W or H×W×3") :=
  ⟨(toGray_cases _).2.1 rfl rfl,
    (toGray_cases _).2.2.1 rfl,
    ((toGray_cases _).1).mpr (by decide),
    (toGray_cases _).2.2.2⟩

/-! ## Claim C2: cache identity and at-most-one read -/

/-- C2: two successive successful `load_model` calls on one engine with
the same (model, config) pair return the identical model object (the
same allocation id) and the second call leaves the state untouched — in
particular it performs no disk read and constructs no architecture; the
first call reads at most one weight file, so the file is read at most
once across both calls. -/
theorem load_model_cache_at_most_once (E E' : Env) (σ σ₁ σ₂ : EngineState)
    (m c : String) (mid mid' : Nat)
    (h₁ : load_model E σ m c = (.ok mid, σ₁))
    (h₂ : load_model E' σ₁ m c = (.ok mid', σ₂)) :
    mid' = mid ∧ σ₂ = σ₁ ∧
      (σ₁.reads = σ.reads ∨ ∃ p, σ₁.reads = p :: σ.reads) := by
  obtain ⟨hcached, hreads⟩ := load_model_ok_cached E σ m c mid σ₁ h₁
  rw [load_model_hit E' σ₁ m c mid hcached] at h₂
  injection h₂ with ha hb
  injection ha with ha
  exact ⟨ha.symm, hb.symm, hreads⟩

/-- Witness for C2: in `envAllGood` the first load of
`densenet121`/`config1` allocates object 0 and reads the weight file
once; the second load returns the same object and state. -/
theorem load_model_cache_at_most_once_witness :
    load_model envAllGood initialState "densenet121" "config1"
      = (.ok 0, stateAfterFirstLoad) ∧
    load_model envAllGood stateAfterFirstLoad "densenet121" "config1"
      = (.ok 0, stateAfterFirstLoad) ∧
    ((0 : Nat) = 0 ∧ stateAfterFirstLoad = stateAfterFirstLoad ∧
      (stateAfterFirstLoad.reads = initialState.reads ∨
        ∃ p, stateAfterFirstLoad.reads = p :: initialState.reads)) :=
  ⟨rfl, rfl,
    load_model_cache_at_most_once envAllGood envAllGood initialState
      stateAfterFirstLoad stateAfterFirstLoad "densenet121" "config1" 0 0 rfl rfl⟩

/-! ## Claim C7: missing weight file -/

/-- C7: for a registered, compatible (model, config) pair that is not
yet cached but whose weight file is absent at
`models_dir/config/filename`, `predict` returns a Failure outcome whose
`processing_time` is exactly `0.0` and whose error message contains the
missing path. -/
theorem predict_missing_weights (E : Env) (σ : EngineState)
    (m c fn : String) (cfg : ConfigSetting) (ds : List String)
    (hmiss : σ.loaded_models.lookup (m ++ "_" ++ c) = none)
    (hc : CONFIG_SETTINGS.lookup c = some cfg)
    (hm : MODEL_FILENAME_MAP.lookup m = some fn)
    (hcompat : check_compatibility m c = true)
    (hfs : E.fs (E.models_dir ++ "/" ++ c ++ "/" ++ fn) = false) :
    ∃ o, (predict E σ m c ds).1 = .ok o ∧ o.success = false ∧
      o.processing_time = 0 ∧
      ∃ pre post, o.error =
        some (pre ++ (E.models_dir ++ "/" ++ c ++ "/" ++ fn) ++ post) := by
  have hload := load_model_miss_nofile E σ m c fn cfg hmiss hc hm hcompat hfs
  unfold predict
  rw [hload]
  exact ⟨_, rfl, rfl, rfl,
    "Model file not found: ",
    "\nPlease ensure the model is trained and saved in the correct location.", rfl⟩

/-- Witness for C7: in `envNoFile` the fresh engine fails a
`densenet121`/`config1` prediction with `processing_time = 0` and the
missing path in the message. -/
theorem predict_missing_weights_witness :
    ∃ o, (predict envNoFile initialState "densenet121" "config1" []).1 = .ok o ∧
      o.success = false ∧ o.processing_time = 0 ∧
      ∃ pre post, o.error =
        some (pre ++ (envNoFile.models_dir ++ "/" ++ "config1" ++ "/"
          ++ "densenet121.pth") ++ post) :=
  predict_missing_weights envNoFile initialState "densenet121" "config1"
    "densenet121.pth" ⟨224, 1/10000, "focal", "CNN"⟩ [] rfl rfl rfl rfl rfl

/-! ## Claim C8: incompatible pair fails before any file access -/

/-- C8: requesting `densenet121` with `config3` on an engine whose cache
does not hold that key raises the incompatibility `ValueError` whose
message lists `['config1', 'config2', 'config4']` as the compatible
configs, leaves the state (including the read log) unchanged, and is
independent of the file system and weight store — no path resolution or
weight read is attempted (the result is identical under any two external
worlds). -/
theorem load_model_densenet121_config3 (E₁ E₂ : Env) (σ : EngineState)
    (hmiss : σ.loaded_models.lookup "densenet121_config3" = none) :
    load_model E₁ σ "densenet121" "config3"
      = (.error (.valueError (incompatMsg "densenet121" "config3"
          ["config1", "config2", "config4"])), σ) ∧
    load_model E₁ σ "densenet121" "config3"
      = load_model E₂ σ "densenet121" "config3" ∧
    ∃ pre post, incompatMsg "densenet121" "config3" ["config1", "config2", "config4"]
      = pre ++ pyStrList ["config1", "config2", "config4"] ++ post := by
  have hmiss' : σ.loaded_models.lookup ("densenet121" ++ "_" ++ "config3") = none := hmiss
  have h₁ := load_model_miss_incompat E₁ σ "densenet121" "config3" "densenet121.pth"
    ⟨224, 1/10000, "focal", "CNN-Transformer"⟩ hmiss' rfl rfl rfl
  have h₂ := load_model_miss_incompat E₂ σ "densenet121" "config3" "densenet121.pth"
    ⟨224, 1/10000, "focal", "CNN-Transformer"⟩ hmiss' rfl rfl rfl
  refine ⟨h₁, h₁.trans h₂.symm, ?_⟩
  exact ⟨"Model \x27densenet121\x27 is not compatible with \x27config3\x27.\n"
      ++ "Compatible configs for densenet121: ",
    "\n" ++ "Config types:\n"
      ++ "  - config1: CNN models, 224x224, Focal Loss\n"
      ++ "  - config2: CNN models, 320x320, Focal Loss\n"
      ++ "  - config3: CNN-Transformer models, 224x224, Focal Loss\n"
      ++ "  - config4: All models, 224x224, Asymmetric Loss", rfl⟩

/-- Witness for C8 on the fresh engine in two different worlds (all
files present vs none present): the identical incompatibility error. -/
theorem load_model_densenet121_config3_witness :
    load_model envAllGood initialState "densenet121" "config3"
      = (.error (.valueError (incompatMsg "densenet121" "config3"
          ["config1", "config2", "config4"])), initialState) ∧
    load_model envAllGood initialState "densenet121" "config3"
      = load_model envNoFile initialState "densenet121" "config3" ∧
    ∃ pre post, incompatMsg "densenet121" "config3" ["config1", "config2", "config4"]
      = pre ++ pyStrList ["config1", "config2", "config4"] ++ post :=
  load_model_densenet121_config3 envAllGood envNoFile initialState rfl

/-! ## Claim C10: cache-validity invariant -/

/-- Splitting a character list around a separator that occurs in neither
of the two reference segments is unambiguous. -/
theorem underscore_split_aux :
    ∀ (x : List Char), '_' ∉ x → ∀ (a b y : List Char), '_' ∉ y →
      a ++ '_' :: b = x ++ '_' :: y → a = x ∧ b = y := by
  intro x
  induction x with
  | nil =>
    intro _ a b y hy h
    cases a with
    | nil =>
      simp only [List.nil_append] at h
      exact ⟨rfl, by injection h⟩
    | cons ca a' =>
      simp only [List.cons_append, List.nil_append] at h
      injection h with h1 h2
      exfalso
      apply hy
      rw [← h2]
      exact List.mem_append_right a' (List.mem_cons_self _ _)
  | cons ch x' ih =>
    intro hx a b y hy h
    have hch : ch ≠ '_' := fun he => hx (he ▸ List.mem_cons_self ch x')
    cases a with
    | nil =>
      simp only [List.nil_append, List.cons_append] at h
      injection h with h1 _
      exact absurd h1.symm hch
    | cons ca a' =>
      simp only [List.cons_append] at h
      injection h with h1 h2
      have hx' : '_' ∉ x' := fun hm => hx (List.mem_cons_of_mem _ hm)
      obtain ⟨ha, hb⟩ := ih hx' a' b y hy h2
      exact ⟨by rw [h1, ha], hb⟩

/-- Cache keys `m ++ "_" ++ c` are unambiguous as long as the reference
decomposition has no underscore in either component: every registered
model and config name is underscore-free, so a key formed from a
registered pair can only be formed from that pair. -/
theorem cacheKey_inj (m c m₀ c₀ : String)
    (hm : '_' ∉ m₀.data) (hc : '_' ∉ c₀.data)
    (h : m ++ "_" ++ c = m₀ ++ "_" ++ c₀) : m = m₀ ∧ c = c₀ := by
  have hd : m.data ++ '_' :: c.data = m₀.data ++ '_' :: c₀.data := by
    have h' := congrArg String.data h
    simpa [String.data_append] using h'
  obtain ⟨h1, h2⟩ := underscore_split_aux m₀.data hm m.data c.data c₀.data hc hd
  exact ⟨String.ext h1, String.ext h2⟩

/-- Every registered model name is underscore-free. -/
theorem registered_model_no_underscore (m : String)
    (h : (MODEL_FILENAME_MAP.lookup m).isSome = true) : '_' ∉ m.data := by
  rw [List.lookup_isSome_iff] at h
  obtain ⟨p, hp, he⟩ := h
  have hm : m = p.1 := by simpa using he
  subst hm
  simp only [ MODEL_FILENAME_MAP, List.mem_cons, List.not_mem_nil, or_false] at hp
  rcases hp with rfl | rfl | rfl | rfl | rfl <;> decide

/-- Every registered config name is underscore-free. -/
theorem registered_config_no_underscore (c : String)
    (h : (CONFIG_SETTINGS.lookup c).isSome = true) : '_' ∉ c.data := by
  rw [List.lookup_isSome_iff] at h
  obtain ⟨p, hp, he⟩ := h
  have hc : c = p.1 := by simpa using he
  subst hc
  simp only [CONFIG_SETTINGS, List.mem_cons, List.not_mem_nil, or_false] at hp
  rcases hp with rfl | rfl | rfl | rfl <;> decide

/-- One `load_model` call either leaves the cache unchanged or prepends
the key of a pair that passed all three validations. -/
theorem load_model_cache_evolution (E : Env) (σ : EngineState)
    (m c : String) (r : Except PyExn Nat) (σ' : EngineState)
    (h : load_model E σ m c = (r, σ')) :
    σ'.loaded_models = σ.loaded_models ∨
      (σ'.loaded_models = (m ++ "_" ++ c, σ.nextId) :: σ.loaded_models ∧
        validPair m c) := by
  simp only [load_model] at h
  cases hmiss : σ.loaded_models.lookup (m ++ "_" ++ c) with
  | some mid0 =>
    rw [hmiss] at h
    injection h with _ hb
    left
    rw [← hb]
  | none =>
    rw [hmiss] at h
    split_ifs at h with h1 h2 h3
    · injection h with _ hb
      left
      rw [← hb]
    · injection h with _ hb
      left
      rw [← hb]
    · cases hgp : get_model_path E m c with
      | error e =>
        rw [hgp] at h
        injection h with _ hb
        left
        rw [← hb]
      | ok model_path =>
        rw [hgp] at h
        dsimp only [] at h
        by_cases hap : E.applyOk m (normalizeCheckpoint (E.torchLoad model_path))
        · rw [if_pos hap] at h
          injection h with _ hb
          right
          refine ⟨by rw [← hb], ?_, ?_, h3⟩
          · cases hom : MODEL_FILENAME_MAP.lookup m with
            | none => exact absurd (by simp [hom]) h2
            | some _ => simp
          · cases hoc : CONFIG_SETTINGS.lookup c with
            | none => exact absurd (by simp [hoc]) h1
            | some _ => simp
        · rw [if_neg hap] at h
          injection h with _ hb
          left
          rw [← hb]
    · injection h with _ hb
      left
      rw [← hb]

/-- Every reachable engine state has a valid cache. -/
theorem reachable_cacheValid (σ : EngineState) (h : Reachable σ) :
    cacheValid σ := by
  induction h with
  | init =>
    intro k mid hk
    exact absurd hk (List.not_mem_nil _)
  | load E m c σ σ' r _ hlm ih =>
    rcases load_model_cache_evolution E σ m c r σ' hlm with heq | ⟨heq, hv⟩
    · intro k mid hk
      exact ih k mid (heq ▸ hk)
    · intro k mid hk
      rw [heq] at hk
      rcases List.mem_cons.mp hk with hk | hk
      · injection hk with hk1 _
        exact ⟨m, c, hk1, hv⟩
      · exact ih k mid hk
  | clear σ _ _ =>
    intro k mid hk
    simp only [clear_cache] at hk
    exact absurd hk (List.not_mem_nil _)

/-- In a valid cache, a hit on the key of (m, c) certifies that (m, c)
itself is a valid pair: keys of registered pairs contain exactly one
underscore, so the decomposition is unique. -/
theorem cacheValid_hit_valid (σ : EngineState) (hv : cacheValid σ)
    (m c : String) (mid : Nat)
    (h : σ.loaded_models.lookup (m ++ "_" ++ c) = some mid) :
    validPair m c := by
  have hmem : (m ++ "_" ++ c, mid) ∈ σ.loaded_models := by
    rw [List.lookup_eq_some_iff] at h
    obtain ⟨l₁, l₂, hl, _⟩ := h
    rw [hl]
    exact List.mem_append_right _ (List.mem_cons_self _ _)
  obtain ⟨m₀, c₀, hkey, hval⟩ := hv _ _ hmem
  obtain ⟨heqm, heqc⟩ := cacheKey_inj m c m₀ c₀
    (registered_model_no_underscore m₀ hval.1)
    (registered_config_no_underscore c₀ hval.2.1) hkey
  rw [heqm, heqc]
  exact hval

/-- On a cache miss with an unregistered config, `load_model` raises the
invalid-config `ValueError`. -/
theorem load_model_miss_badconfig (E : Env) (σ : EngineState) (m c : String)
    (hmiss : σ.loaded_models.lookup (m ++ "_" ++ c) = none)
    (hc : CONFIG_SETTINGS.lookup c = none) :
    load_model E σ m c =
      (.error (.valueError ("Invalid config \x27" ++ c ++ "\x27. Available: "
        ++ pyStrList (CONFIG_SETTINGS.map Prod.fst))), σ) := by
  simp only [load_model]
  rw [hmiss]
  simp [hc]

/-- On a cache miss with a registered config but unregistered model,
`load_model` raises the invalid-model `ValueError`. -/
theorem load_model_miss_badmodel (E : Env) (σ : EngineState) (m c : String)
    (cfg : ConfigSetting)
    (hmiss : σ.loaded_models.lookup (m ++ "_" ++ c) = none)
    (hc : CONFIG_SETTINGS.lookup c = some cfg)
    (hm : MODEL_FILENAME_MAP.lookup m = none) :
    load_model E σ m c =
      (.error (.valueError ("Invalid model \x27" ++ m ++ "\x27. Available: "
        ++ pyStrList (MODEL_FILENAME_MAP.map Prod.fst))), σ) := by
  simp only [load_model]
  rw [hmiss]
  simp [hc, hm]

/-- C10: in every reachable state of a `ModelInference` instance, every
key of the `loaded_models` cache corresponds to a (model, config) pair
whose model is in the filename registry, whose config is in the config
registry, and which `check_compatibility` accepts; consequently —
although `load_model` consults the cache before validating its
arguments — the early cached return can never serve an unregistered or
incompatible pair, and `load_model` still raises a `ValueError` on every
invalid or incompatible input. -/
theorem cache_validity_invariant (σ : EngineState) (hσ : Reachable σ) :
    (∀ k mid, (k, mid) ∈ σ.loaded_models →
      ∃ m c, k = m ++ "_" ++ c ∧
        (MODEL_FILENAME_MAP.lookup m).isSome = true ∧
        (CONFIG_SETTINGS.lookup c).isSome = true ∧
        check_compatibility m c = true) ∧
    (∀ (E : Env) (m c : String), ¬ validPair m c →
      ∃ msg, (load_model E σ m c).1 = .error (.valueError msg)) := by
  have hv := reachable_cacheValid σ hσ
  constructor
  · intro k mid hk
    obtain ⟨m, c, hkey, hval⟩ := hv k mid hk
    exact ⟨m, c, hkey, hval.1, hval.2.1, hval.2.2⟩
  · intro E m c hnv
    cases hmiss : σ.loaded_models.lookup (m ++ "_" ++ c) with
    | some mid => exact absurd (cacheValid_hit_valid σ hv m c mid hmiss) hnv
    | none =>
      cases ho : CONFIG_SETTINGS.lookup c with
      | none =>
        exact ⟨_, by rw [load_model_miss_badconfig E σ m c hmiss ho]⟩
      | some cfg =>
        cases hom : MODEL_FILENAME_MAP.lookup m with
        | none =>
          exact ⟨_, by rw [load_model_miss_badmodel E σ m c cfg hmiss ho hom]⟩
        | some fn =>
          have hcompat : check_compatibility m c = false := by
            cases hcc : check_compatibility m c
            · rfl
            · exact absurd ⟨by simp [hom], by simp [ho], hcc⟩ hnv
          exact ⟨_, by
            rw [load_model_miss_incompat E σ m c fn cfg hmiss ho hom hcompat]⟩

/-- Witness for C10: from the freshly constructed (hence reachable)
engine, the incompatible pair `densenet121`/`config3` is still rejected
with a `ValueError`. -/
theorem cache_validity_invariant_witness :
    ∃ msg, (load_model envAllGood initialState "densenet121" "config3").1
      = .error (.valueError msg) :=
  (cache_validity_invariant initialState Reachable.init).2 envAllGood
    "densenet121" "config3" (by decide)

/-! ## Claim C1: error containment in `predict` -/

/-- When `load_model` succeeds against a valid cache, the config id is
registered (either the miss path validated it, or the hit key certifies
it), so `predict`'s bare `CONFIG_SETTINGS[config]` access cannot raise. -/
theorem load_model_ok_config_registered (E : Env) (σ : EngineState)
    (m c : String) (mid : Nat) (σ' : EngineState) (hv : cacheValid σ)
    (h : load_model E σ m c = (.ok mid, σ')) :
    ∃ cfg, CONFIG_SETTINGS.lookup c = some cfg := by
  simp only [load_model] at h
  cases hmiss : σ.loaded_models.lookup (m ++ "_" ++ c) with
  | some mid0 =>
    have hval := cacheValid_hit_valid σ hv m c mid0 hmiss
    exact Option.isSome_iff_exists.mp hval.2.1
  | none =>
    rw [hmiss] at h
    split_ifs at h with h1 h2 h3
    · exact absurd (congrArg Prod.fst h) (by simp)
    · exact absurd (congrArg Prod.fst h) (by simp)
    · cases ho : CONFIG_SETTINGS.lookup c with
      | none => exact absurd (by simp [ho]) h1
      | some cfg => exact ⟨cfg, rfl⟩
    · exact absurd (congrArg Prod.fst h) (by simp)

/-- Full outcome analysis of `predict` over a valid cache: either it
propagates an exception, in which case that exception came from the
load stage and is neither a `ValueError` nor a `FileNotFoundError`; or
it returns an outcome, and every failure outcome carries an error
message and the contextual model/config/image-size/device fields. -/
theorem predict_outcome_analysis (E : Env) (σ : EngineState)
    (m c : String) (ds : List String) (hv : cacheValid σ) :
    (∃ e σ1, predict E σ m c ds = (.error e, σ1) ∧
      load_model E σ m c = (.error e, σ1) ∧
      (∀ msg, e ≠ .valueError msg) ∧ (∀ msg, e ≠ .fileNotFoundError msg)) ∨
    (∃ o σ1, predict E σ m c ds = (.ok o, σ1) ∧
      (o.success = false → o.error.isSome = true ∧ o.model_name = m ∧
        o.config = c ∧ o.device = E.device ∧
        o.image_size = ((CONFIG_SETTINGS.lookup c).map
          ConfigSetting.image_size).getD 0)) := by
  cases hlm : load_model E σ m c with
  | mk r σ1 =>
    cases r with
    | error e0 =>
      cases e0 with
      | valueError msg =>
        right
        refine ⟨{ success := false, error := some msg, results := [],
                  processing_time := 0, model_name := m, config := c,
                  image_size := ((CONFIG_SETTINGS.lookup c).map
                    ConfigSetting.image_size).getD 0,
                  device := E.device }, σ1, ?_,
          fun _ => ⟨rfl, rfl, rfl, rfl, rfl⟩⟩
        simp only [predict]
        rw [hlm]
      | fileNotFoundError msg =>
        right
        refine ⟨{ success := false, error := some msg, results := [],
                  processing_time := 0, model_name := m, config := c,
                  image_size := ((CONFIG_SETTINGS.lookup c).map
                    ConfigSetting.image_size).getD 0,
                  device := E.device }, σ1, ?_,
          fun _ => ⟨rfl, rfl, rfl, rfl, rfl⟩⟩
        simp only [predict]
        rw [hlm]
      | runtimeError msg =>
        left
        refine ⟨.runtimeError msg, σ1, ?_, rfl,
          fun _ h => PyExn.noConfusion h, fun _ h => PyExn.noConfusion h⟩
        simp only [predict]
        rw [hlm]
      | keyError msg =>
        left
        refine ⟨.keyError msg, σ1, ?_, rfl,
          fun _ h => PyExn.noConfusion h, fun _ h => PyExn.noConfusion h⟩
        simp only [predict]
        rw [hlm]
    | ok mid =>
      obtain ⟨cfg, hcfg⟩ := load_model_ok_config_registered E σ m c mid σ1 hv hlm
      cases hpre : E.preprocessResult with
      | error ep =>
        right
        refine ⟨{ success := false,
                  error := some ("Image preprocessing failed: " ++ pyExnMsg ep),
                  results := [], processing_time := E.elapsedPre,
                  model_name := m, config := c, image_size := cfg.image_size,
                  device := E.device }, σ1, ?_,
          fun _ => ⟨rfl, rfl, rfl, rfl, by simp [hcfg]⟩⟩
        simp only [predict]
        rw [hlm, hcfg, hpre]
      | ok t =>
        cases hf : E.forward mid t with
        | error ef =>
          right
          refine ⟨{ success := false,
                    error := some ("Model inference failed: " ++ pyExnMsg ef),
                    results := [], processing_time := E.elapsedInf,
                    model_name := m, config := c, image_size := cfg.image_size,
                    device := E.device }, σ1, ?_,
            fun _ => ⟨rfl, rfl, rfl, rfl, by simp [hcfg]⟩⟩
          simp only [predict]
          rw [hlm, hcfg, hpre]
          dsimp only []
          rw [hf]
        | ok logits =>
          right
          refine ⟨{ success := true, error := none,
                    results := ds.zip (logits.map sigmoid),
                    processing_time := E.elapsedOk,
                    model_name := m, config := c, image_size := cfg.image_size,
                    device := E.device }, σ1, ?_, fun h => Bool.noConfusion h⟩
          simp only [predict]
          rw [hlm, hcfg, hpre]
          dsimp only []
          rw [hf]

/-- C1 (amended): on every reachable engine state, `predict` converts
every preprocessing-stage and inference-stage failure, and every
load-stage `ValueError` or `FileNotFoundError`, into a Failure outcome
carrying an error message and the contextual fields `model_name`,
`config`, `image_size` and `device`; but a load-stage exception of any
other class escapes `predict` uncaught — in particular the
`RuntimeError` that `load_state_dict` raises when the weight file's
parameters mismatch the built architecture (the WeightLoadError case),
contrary to the original claim. -/
theorem predict_error_containment (E : Env) (σ : EngineState)
    (m c : String) (ds : List String) (hσ : Reachable σ) :
    (∀ e, (predict E σ m c ds).1 = .error e →
      (load_model E σ m c).1 = .error e ∧
        (∀ msg, e ≠ .valueError msg) ∧ (∀ msg, e ≠ .fileNotFoundError msg)) ∧
    (∀ o, (predict E σ m c ds).1 = .ok o → o.success = false →
      o.error.isSome = true ∧ o.model_name = m ∧ o.config = c ∧
        o.device = E.device ∧
        o.image_size = ((CONFIG_SETTINGS.lookup c).map
          ConfigSetting.image_size).getD 0) := by
  have hv := reachable_cacheValid σ hσ
  rcases predict_outcome_analysis E σ m c ds hv with
    ⟨e0, σ1, hp, hl, hnv, hnf⟩ | ⟨o0, σ1, hp, himp⟩
  · constructor
    · intro e he
      rw [hp] at he
      cases Except.error.inj he
      exact ⟨by rw [hl], hnv, hnf⟩
    · intro o ho
      rw [hp] at ho
      exact nomatch ho
  · constructor
    · intro e he
      rw [hp] at he
      exact nomatch he
    · intro o ho
      rw [hp] at ho
      cases Except.ok.inj ho
      exact himp

/-- Witness for C1's amended statement: on the fresh (reachable) engine
in the missing-file world, the contained `FileNotFoundError` produces a
Failure outcome with the contextual fields. -/
theorem predict_error_containment_witness :
    ∃ o, (predict envNoFile initialState "densenet121" "config1" []).1 = .ok o ∧
      o.success = false ∧ o.error.isSome = true ∧
      o.model_name = "densenet121" ∧ o.config = "config1" ∧
      o.device = envNoFile.device ∧
      o.image_size = ((CONFIG_SETTINGS.lookup "config1").map
        ConfigSetting.image_size).getD 0 := by
  refine ⟨_, rfl, rfl, ?_⟩
  have h := (predict_error_containment envNoFile initialState "densenet121"
    "config1" [] Reachable.init).2 _ rfl rfl
  exact ⟨h.1, h.2.1, h.2.2.1, h.2.2.2.1, h.2.2.2.2⟩

/-- Counterexample to C1 as stated: with the weight file present but its
parameters mismatching the architecture, the load stage raises
`RuntimeError`, which `except (ValueError, FileNotFoundError)` does not
catch, so the error escapes `predict` instead of becoming a Failure
outcome. -/
theorem predict_weightload_escapes :
    (predict envBadWeights initialState "densenet121" "config1" []).1
      = .error (.runtimeError "Error(s) in loading state_dict for densenet121") :=
  rfl

/-! ## Claim C4: success results -/

/-- The logistic sigmoid maps every real logit into `[0, 1]`. -/
theorem sigmoid_mem_unit (x : ℝ) : 0 ≤ sigmoid x ∧ sigmoid x ≤ 1 := by
  unfold sigmoid
  have hexp : 0 < Real.exp (-x) := Real.exp_pos _
  have hpos : 0 < 1 + Real.exp (-x) := by linarith
  constructor
  · positivity
  · rw [div_le_one hpos]
    linarith

/-- C4 (amended): every successful `predict` outcome pairs the supplied
disease labels positionally with the sigmoids of the raw logits, and
every contained probability lies in `[0, 1]` for arbitrary finite
logits; the results list has the same length as the supplied
disease-label list provided that list is no longer than the logit vector
(Python's `zip` truncates to the shorter sequence, so a longer label
list is silently cut to the number of logits — the documented
precondition is a label list of length `num_classes`). -/
theorem predict_success_results (E : Env) (σ : EngineState)
    (m c : String) (ds : List String) (o : PredictOutcome) (σ' : EngineState)
    (h : predict E σ m c ds = (.ok o, σ')) (hs : o.success = true) :
    ∃ logits : List ℝ, o.results = ds.zip (logits.map sigmoid) ∧
      (ds.length ≤ logits.length → o.results.length = ds.length) ∧
      ∀ p ∈ o.results, 0 ≤ p.2 ∧ p.2 ≤ 1 := by
  simp only [predict] at h
  cases hlm : load_model E σ m c with
  | mk r σ1 =>
    rw [hlm] at h
    cases r with
    | error e0 =>
      cases e0 with
      | valueError msg =>
        cases Except.ok.inj (congrArg Prod.fst h)
        exact Bool.noConfusion hs
      | fileNotFoundError msg =>
        cases Except.ok.inj (congrArg Prod.fst h)
        exact Bool.noConfusion hs
      | runtimeError msg => exact absurd (congrArg Prod.fst h) (by simp)
      | keyError msg => exact absurd (congrArg Prod.fst h) (by simp)
    | ok mid =>
      cases hcfg : CONFIG_SETTINGS.lookup c with
      | none =>
        rw [hcfg] at h
        exact absurd (congrArg Prod.fst h) (by simp)
      | some cfg =>
        rw [hcfg] at h
        cases hpre : E.preprocessResult with
        | error ep =>
          rw [hpre] at h
          cases Except.ok.inj (congrArg Prod.fst h)
          exact Bool.noConfusion hs
        | ok t =>
          rw [hpre] at h
          dsimp only [] at h
          cases hf : E.forward mid t with
          | error ef =>
            rw [hf] at h
            cases Except.ok.inj (congrArg Prod.fst h)
            exact Bool.noConfusion hs
          | ok logits =>
            rw [hf] at h
            cases Except.ok.inj (congrArg Prod.fst h)
            refine ⟨logits, rfl, ?_, ?_⟩
            · intro hlen
              simp only [List.length_zip, List.length_map]
              omega
            · intro p hp
              obtain ⟨a, b⟩ := p
              obtain ⟨_, hb⟩ := List.of_mem_zip hp
              obtain ⟨x, _, hx⟩ := List.mem_map.mp hb
              rw [← hx]
              exact sigmoid_mem_unit x

/-- Witness for C4's amended statement: a successful one-label
prediction in `envAllGood` (six zero logits) yields one positional pair
with its probability in `[0, 1]`. -/
theorem predict_success_results_witness :
    ∃ o, predict envAllGood initialState "densenet121" "config1" ["Atelectasis"]
        = (.ok o, stateAfterFirstLoad) ∧ o.success = true ∧
      ∃ logits : List ℝ, o.results = ["Atelectasis"].zip (logits.map sigmoid) ∧
        ((["Atelectasis"] : List String).length ≤ logits.length →
          o.results.length = (["Atelectasis"] : List String).length) ∧
        ∀ p ∈ o.results, 0 ≤ p.2 ∧ p.2 ≤ 1 := by
  refine ⟨_, rfl, rfl, ?_⟩
  exact predict_success_results envAllGood initialState "densenet121" "config1"
    ["Atelectasis"] _ _ rfl rfl

/-- Counterexample to C4 as stated: with six logits (`num_classes = 6`)
and seven supplied disease labels, the successful outcome's results list
has length 6, not 7 — `zip` truncates instead of matching the label
list's length. -/
theorem predict_results_length_cex :
    ((predict envAllGood initialState "densenet121" "config1"
        ["a", "b", "c", "d", "e", "f", "g"]).1.toOption.map
      (fun o => (o.success, o.results.length))) = some (true, 6) ∧
    (6 : Nat) ≠ (["a", "b", "c", "d", "e", "f", "g"] : List String).length :=
  ⟨rfl, by decide⟩

/-! ## Rounding lemmas for the letterbox geometry -/

/-- Python's `round` is the identity on integers. -/
theorem pyRound_intCast (n : ℤ) : pyRound (n : ℚ) = n := by
  unfold pyRound
  rw [Int.floor_intCast]
  rw [if_pos (show (n : ℚ) - (n : ℚ) < 1/2 by norm_num)]

/-- Python's `round` lands within half a unit of its argument. -/
theorem pyRound_bounds (q : ℚ) :
    q - 1/2 ≤ (pyRound q : ℚ) ∧ (pyRound q : ℚ) ≤ q + 1/2 := by
  unfold pyRound
  have hf1 : (⌊q⌋ : ℚ) ≤ q := Int.floor_le q
  have hf2 : q < ⌊q⌋ + 1 := Int.lt_floor_add_one q
  split_ifs with h1 h2 h3
  · constructor <;> linarith
  · push_neg at h1
    push_cast
    constructor <;> linarith
  · push_neg at h1 h2
    constructor <;> linarith
  · push_neg at h1 h2
    push_cast
    constructor <;> linarith

/-- Rounding a nonnegative value stays nonnegative. -/
theorem pyRound_nonneg (q : ℚ) (h : 0 ≤ q) : 0 ≤ pyRound q := by
  have hb := (pyRound_bounds q).1
  by_contra hneg
  push_neg at hneg
  have h1 : pyRound q ≤ -1 := by omega
  have h2 : (pyRound q : ℚ) ≤ -1 := by exact_mod_cast h1
  linarith

/-- Rounding a value below an integer bound stays below it. -/
theorem pyRound_le_of_le_int (q : ℚ) (s : ℤ) (h : q ≤ s) : pyRound q ≤ s := by
  have hb := (pyRound_bounds q).2
  by_contra hgt
  push_neg at hgt
  have h1 : s + 1 ≤ pyRound q := hgt
  have h2 : ((s : ℚ) + 1) ≤ (pyRound q : ℚ) := by exact_mod_cast h1
  linarith

/-! ## Letterbox geometry -/

/-- The scaled height never exceeds the target size. -/
theorem letterboxNewH_le (h w s : Nat) (hh : 1 ≤ h) (hs : 1 ≤ s) :
    letterboxNewH h w s ≤ s := by
  unfold letterboxNewH letterboxScale
  have hm1 : 1 ≤ max h w := le_trans hh (Nat.le_max_left h w)
  have hm : (0 : ℚ) < ((max h w : Nat) : ℚ) := by exact_mod_cast hm1
  have hhm : (h : ℚ) ≤ ((max h w : Nat) : ℚ) := by exact_mod_cast Nat.le_max_left h w
  have hle : (h : ℚ) * ((s : ℚ) / ((max h w : Nat) : ℚ)) ≤ (s : ℚ) := by
    rw [← mul_div_assoc, div_le_iff₀ hm]
    have h1 : (h : ℚ) * (s : ℚ) ≤ ((max h w : Nat) : ℚ) * (s : ℚ) :=
      mul_le_mul_of_nonneg_right hhm (by positivity)
    linarith
  have hr := pyRound_le_of_le_int _ (s : ℤ) (by exact_mod_cast hle)
  omega

/-- The scaled width never exceeds the target size. -/
theorem letterboxNewW_le (h w s : Nat) (hw : 1 ≤ w) (hs : 1 ≤ s) :
    letterboxNewW h w s ≤ s := by
  unfold letterboxNewW letterboxScale
  have hm1 : 1 ≤ max h w := le_trans hw (Nat.le_max_right h w)
  have hm : (0 : ℚ) < ((max h w : Nat) : ℚ) := by exact_mod_cast hm1
  have hhm : (w : ℚ) ≤ ((max h w : Nat) : ℚ) := by exact_mod_cast Nat.le_max_right h w
  have hle : (w : ℚ) * ((s : ℚ) / ((max h w : Nat) : ℚ)) ≤ (s : ℚ) := by
    rw [← mul_div_assoc, div_le_iff₀ hm]
    have h1 : (w : ℚ) * (s : ℚ) ≤ ((max h w : Nat) : ℚ) * (s : ℚ) :=
      mul_le_mul_of_nonneg_right hhm (by positivity)
    linarith
  have hr := pyRound_le_of_le_int _ (s : ℤ) (by exact_mod_cast hle)
  omega

/-- When the height is the larger dimension, it is scaled to exactly the
target size. -/
theorem letterboxNewH_eq (h w s : Nat) (hwh : w ≤ h) (hh : 1 ≤ h) (hs : 1 ≤ s) :
    letterboxNewH h w s = s := by
  unfold letterboxNewH letterboxScale
  rw [Nat.max_eq_left hwh]
  have hne : (h : ℚ) ≠ 0 := by
    have : (0 : ℚ) < (h : ℚ) := by exact_mod_cast hh
    linarith
  have hq : (h : ℚ) * ((s : ℚ) / (h : ℚ)) = ((s : ℤ) : ℚ) := by
    push_cast
    field_simp
  rw [hq, pyRound_intCast]
  omega

/-- When the width is the larger dimension, it is scaled to exactly the
target size. -/
theorem letterboxNewW_eq (h w s : Nat) (hhw : h ≤ w) (hw : 1 ≤ w) (hs : 1 ≤ s) :
    letterboxNewW h w s = s := by
  unfold letterboxNewW letterboxScale
  rw [Nat.max_eq_right hhw]
  have hne : (w : ℚ) ≠ 0 := by
    have : (0 : ℚ) < (w : ℚ) := by exact_mod_cast hw
    linarith
  have hq : (w : ℚ) * ((s : ℚ) / (w : ℚ)) = ((s : ℤ) : ℚ) := by
    push_cast
    field_simp
  rw [hq, pyRound_intCast]
  omega

/-- The scaled width is within one pixel of the exact value `w * scale`
(within half a pixel except when the minimum-1 clamp fires). -/
theorem letterboxNewW_within_one (h w s : Nat) :
    |(letterboxNewW h w s : ℚ) - (w : ℚ) * letterboxScale h w s| ≤ 1 := by
  unfold letterboxNewW
  have hq0 : 0 ≤ (w : ℚ) * letterboxScale h w s := by
    unfold letterboxScale
    positivity
  have hb := pyRound_bounds ((w : ℚ) * letterboxScale h w s)
  have hr0 := pyRound_nonneg _ hq0
  rcases Nat.eq_zero_or_pos (pyRound ((w : ℚ) * letterboxScale h w s)).toNat
    with h0 | hpos
  · have hz : pyRound ((w : ℚ) * letterboxScale h w s) = 0 := by omega
    rw [hz] at hb
    have hq12 : (w : ℚ) * letterboxScale h w s ≤ 1/2 := by
      have := hb.1
      push_cast at this
      linarith
    rw [h0]
    have hcast : ((max 1 0 : Nat) : ℚ) = 1 := by norm_num
    rw [hcast, abs_le]
    constructor <;> linarith
  · have hmax : max 1 (pyRound ((w : ℚ) * letterboxScale h w s)).toNat
        = (pyRound ((w : ℚ) * letterboxScale h w s)).toNat :=
      Nat.max_eq_right hpos
    rw [hmax]
    have hcast : (((pyRound ((w : ℚ) * letterboxScale h w s)).toNat : Nat) : ℚ)
        = ((pyRound ((w : ℚ) * letterboxScale h w s) : ℤ) : ℚ) := by
      exact_mod_cast Int.toNat_of_nonneg hr0
    rw [hcast, abs_le]
    constructor <;> linarith [hb.1, hb.2]

/-- The scaled height is within one pixel of the exact value
`h * scale`. -/
theorem letterboxNewH_within_one (h w s : Nat) :
    |(letterboxNewH h w s : ℚ) - (h : ℚ) * letterboxScale h w s| ≤ 1 := by
  unfold letterboxNewH
  have hq0 : 0 ≤ (h : ℚ) * letterboxScale h w s := by
    unfold letterboxScale
    positivity
  have hb := pyRound_bounds ((h : ℚ) * letterboxScale h w s)
  have hr0 := pyRound_nonneg _ hq0
  rcases Nat.eq_zero_or_pos (pyRound ((h : ℚ) * letterboxScale h w s)).toNat
    with h0 | hpos
  · have hz : pyRound ((h : ℚ) * letterboxScale h w s) = 0 := by omega
    rw [hz] at hb
    have hq12 : (h : ℚ) * letterboxScale h w s ≤ 1/2 := by
      have := hb.1
      push_cast at this
      linarith
    rw [h0]
    have hcast : ((max 1 0 : Nat) : ℚ) = 1 := by norm_num
    rw [hcast, abs_le]
    constructor <;> linarith
  · have hmax : max 1 (pyRound ((h : ℚ) * letterboxScale h w s)).toNat
        = (pyRound ((h : ℚ) * letterboxScale h w s)).toNat :=
      Nat.max_eq_right hpos
    rw [hmax]
    have hcast : (((pyRound ((h : ℚ) * letterboxScale h w s)).toNat : Nat) : ℚ)
        = ((pyRound ((h : ℚ) * letterboxScale h w s) : ℤ) : ℚ) := by
      exact_mod_cast Int.toNat_of_nonneg hr0
    rw [hcast, abs_le]
    constructor <;> linarith [hb.1, hb.2]

/-- The pads on each axis are nonnegative, sum to the total padding, and
split it as evenly as possible with the odd remainder on the
bottom/right. -/
theorem letterboxPads_spec (h w s : Nat) (hh : 1 ≤ h) (hw : 1 ≤ w) (hs : 1 ≤ s) :
    letterboxPadTop h w s + letterboxPadBottom h w s
        = (s : ℤ) - letterboxNewH h w s ∧
      0 ≤ letterboxPadTop h w s ∧
      letterboxPadTop h w s ≤ letterboxPadBottom h w s ∧
      letterboxPadBottom h w s ≤ letterboxPadTop h w s + 1 ∧
      letterboxPadLeft h w s + letterboxPadRight h w s
        = (s : ℤ) - letterboxNewW h w s ∧
      0 ≤ letterboxPadLeft h w s ∧
      letterboxPadLeft h w s ≤ letterboxPadRight h w s ∧
      letterboxPadRight h w s ≤ letterboxPadLeft h w s + 1 := by
  have hH := letterboxNewH_le h w s hh hs
  have hW := letterboxNewW_le h w s hw hs
  have e1 : ∀ a : ℤ, Int.fdiv a 2 = a / 2 := fun a => Int.fdiv_eq_ediv a (by norm_num)
  simp only [letterboxPadBottom, letterboxPadRight, letterboxPadTop,
    letterboxPadLeft, e1]
  omega

/-- Core letterbox theorem: for any resizer meeting `cv2.resize`'s
contract and any image and target of positive dimensions, `letterbox`
succeeds and produces exactly a `size × size` image, 8-bit if the input
is. -/
theorem letterbox_core (resize : Image → Nat → Nat → Interp → Image)
    (hres : resizeContract resize) (g : Image) (s : Nat)
    (hh : 1 ≤ g.h) (hw : 1 ≤ g.w) (hs : 1 ≤ s) :
    ∃ out, letterbox resize g s "reflect" = .ok out ∧ out.h = s ∧ out.w = s ∧
      (is8bit g → is8bit out) := by
  obtain ⟨hrw, hrh, hr8⟩ := hres g (letterboxNewW g.h g.w s) (letterboxNewH g.h g.w s)
    (if letterboxScale g.h g.w s < 1 then Interp.area else Interp.cubic)
  have hps := letterboxPads_spec g.h g.w s hh hw hs
  obtain ⟨hsum, htop, htb, hbt, hsumw, hleft, hlr, hrl⟩ := hps
  refine ⟨copyMakeBorder
      (resize g (letterboxNewW g.h g.w s) (letterboxNewH g.h g.w s)
        (if letterboxScale g.h g.w s < 1 then Interp.area else Interp.cubic))
      (letterboxPadTop g.h g.w s).toNat (letterboxPadBottom g.h g.w s).toNat
      (letterboxPadLeft g.h g.w s).toNat (letterboxPadRight g.h g.w s).toNat,
    ?_, ?_, ?_, ?_⟩
  · simp only [letterbox, if_true]
    rw [if_pos ⟨htop, hleft⟩]
  · simp only [copyMakeBorder]
    rw [hrh]
    omega
  · simp only [copyMakeBorder]
    rw [hrw]
    omega
  · intro h8 i j
    simp only [copyMakeBorder]
    exact hr8 h8 _ _

/-- The fixed-point luma of 8-bit channels is 8-bit. -/
theorem bgrToGray_is8bit (raw : RawImage) (h8 : rawIs8bit raw) :
    is8bit (bgrToGray raw) := by
  intro i j
  have h0 := h8 i j 0
  have h1 := h8 i j 1
  have h2 := h8 i j 2
  simp only [bgrToGray]
  omega

/-! ## Claim C3: letterbox dimensions and the 512×384 scenario -/

/-- C3: for every grayscale image with `h, w ≥ 1` and target `s ≥ 1`
(and any resizer meeting `cv2.resize`'s contract), `letterbox` returns
an image of spatial dimensions exactly `s × s`; the larger input
dimension is scaled to exactly `s` and the smaller lands within one
pixel of `w·scale` (resp. `h·scale`); on each axis the padding splits as
evenly as possible with any odd remainder on the bottom/right.
Instance: a 512×384 (width × height) 3-channel 8-bit image at target 224
gives scale `224/512 = 0.4375`, a resized 224×168 image, 28 px top and
28 px bottom padding, and `preprocess_image` produces a tensor of shape
`[1, 3, 224, 224]` with all values in `[0, 1]`. -/
theorem letterbox_spec :
    (∀ resize, resizeContract resize →
      ∀ (g : Image) (s : Nat), 1 ≤ g.h → 1 ≤ g.w → 1 ≤ s →
        ∃ out, letterbox resize g s "reflect" = .ok out ∧
          out.h = s ∧ out.w = s) ∧
    (∀ h w s : Nat, 1 ≤ h → 1 ≤ s → w ≤ h → letterboxNewH h w s = s) ∧
    (∀ h w s : Nat, 1 ≤ w → 1 ≤ s → h ≤ w → letterboxNewW h w s = s) ∧
    (∀ h w s : Nat,
      |(letterboxNewW h w s : ℚ) - (w : ℚ) * letterboxScale h w s| ≤ 1 ∧
      |(letterboxNewH h w s : ℚ) - (h : ℚ) * letterboxScale h w s| ≤ 1) ∧
    (∀ h w s : Nat, 1 ≤ h → 1 ≤ w → 1 ≤ s →
      letterboxPadTop h w s + letterboxPadBottom h w s
          = (s : ℤ) - letterboxNewH h w s ∧
        letterboxPadTop h w s ≤ letterboxPadBottom h w s ∧
        letterboxPadBottom h w s ≤ letterboxPadTop h w s + 1 ∧
        letterboxPadLeft h w s + letterboxPadRight h w s
          = (s : ℤ) - letterboxNewW h w s ∧
        letterboxPadLeft h w s ≤ letterboxPadRight h w s ∧
        letterboxPadRight h w s ≤ letterboxPadLeft h w s + 1) ∧
    (letterboxScale 384 512 224 = 7/16 ∧
      letterboxNewW 384 512 224 = 224 ∧ letterboxNewH 384 512 224 = 168 ∧
      letterboxPadTop 384 512 224 = 28 ∧ letterboxPadBottom 384 512 224 = 28 ∧
      ∀ resize, resizeContract resize →
        ∀ (raw : RawImage) (nm : RawImage → RawImage) (ip : String),
          raw.dims = [384, 512, 3] → rawIs8bit raw → raw.u8 = true →
          ∃ t, preprocess_image resize nm (some raw) ip 224 "reflect" = .ok t ∧
            t.shape = [1, 3, 224, 224] ∧
            ∀ n ch i j, 0 ≤ t.val n ch i j ∧ t.val n ch i j ≤ 1) := by
  have hmax : (max 384 512 : Nat) = 512 := rfl
  have hsc : letterboxScale 384 512 224 = 7/16 := by
    unfold letterboxScale
    rw [hmax]
    norm_num
  have hnw : letterboxNewW 384 512 224 = 224 := by
    unfold letterboxNewW
    rw [hsc]
    rw [show ((512 : Nat) : ℚ) * (7/16) = ((224 : ℤ) : ℚ) by norm_num,
      pyRound_intCast]
    rfl
  have hnh : letterboxNewH 384 512 224 = 168 := by
    unfold letterboxNewH
    rw [hsc]
    rw [show ((384 : Nat) : ℚ) * (7/16) = ((168 : ℤ) : ℚ) by norm_num,
      pyRound_intCast]
    rfl
  have htop : letterboxPadTop 384 512 224 = 28 := by
    unfold letterboxPadTop
    rw [hnh]
    rfl
  have hbot : letterboxPadBottom 384 512 224 = 28 := by
    unfold letterboxPadBottom letterboxPadTop
    rw [hnh]
    rfl
  refine ⟨?_, ?_, ?_, ?_, ?_, ?_, ?_, ?_, ?_, ?_, ?_⟩
  · intro resize hres g s hh hw hs
    obtain ⟨out, h1, h2, h3, _⟩ := letterbox_core resize hres g s hh hw hs
    exact ⟨out, h1, h2, h3⟩
  · intro h w s hh hs hwh
    exact letterboxNewH_eq h w s hwh hh hs
  · intro h w s hw hs hhw
    exact letterboxNewW_eq h w s hhw hw hs
  · intro h w s
    exact ⟨letterboxNewW_within_one h w s, letterboxNewH_within_one h w s⟩
  · intro h w s hh hw hs
    obtain ⟨a, _, b, c, d, _, e, f⟩ := letterboxPads_spec h w s hh hw hs
    exact ⟨a, b, c, d, e, f⟩
  · exact hsc
  · exact hnw
  · exact hnh
  · exact htop
  · exact hbot
  · intro resize hres raw nm ip hdims h8 hu8
    have h3 : raw.dims.length = 3 ∧ raw.dims.get? 2 = some 3 := by
      rw [hdims]
      exact ⟨rfl, rfl⟩
    have hg : toGray raw = .ok (bgrToGray raw) := by
      unfold toGray
      rw [if_pos h3]
    have hgh : (bgrToGray raw).h = 384 := by simp [bgrToGray, hdims]
    have hgw : (bgrToGray raw).w = 512 := by simp [bgrToGray, hdims]
    have hg8 : is8bit (bgrToGray raw) := bgrToGray_is8bit raw h8
    obtain ⟨out, hlb, hoh, how, ho8⟩ := letterbox_core resize hres (bgrToGray raw)
      224 (by rw [hgh]; norm_num) (by rw [hgw]; norm_num) (by norm_num)
    refine ⟨tensorOfGray out, ?_, ?_, ?_⟩
    · simp only [preprocess_image]
      rw [if_pos hu8, hg]
      dsimp only []
      rw [hlb]
    · simp only [tensorOfGray]
      rw [hoh, how]
    · intro n ch i j
      have hp : out.pix i j < 256 := ho8 hg8 i j
      simp only [tensorOfGray]
      constructor
      · positivity
      · rw [div_le_one (by norm_num : (0 : ℚ) < 255)]
        exact_mod_cast Nat.lt_succ_iff.mp hp

/-- Witness for C3 at concrete inputs: the stub resizer on a 384×512
grayscale image at target 224, the larger-dimension exactness at
512×384, and the full 512×384 preprocessing scenario on `rawSample`. -/
theorem letterbox_spec_witness :
    (∃ out, letterbox resizeStub ⟨384, 512, fun _ _ => 0⟩ 224 "reflect"
        = .ok out ∧ out.h = 224 ∧ out.w = 224) ∧
    letterboxNewH 512 384 224 = 224 ∧
    (∃ t, preprocess_image resizeStub id (some rawSample) "img.png" 224 "reflect"
        = .ok t ∧ t.shape = [1, 3, 224, 224] ∧
      ∀ n ch i j, 0 ≤ t.val n ch i j ∧ t.val n ch i j ≤ 1) := by
  have hres : resizeContract resizeStub := by
    intro g nw nh ip
    refine ⟨rfl, rfl, fun _ i j => ?_⟩
    show (0 : Nat) < 256
    norm_num
  have h8 : rawIs8bit rawSample := by
    intro i j c
    show (0 : Nat) < 256
    norm_num
  exact ⟨letterbox_spec.1 resizeStub hres ⟨384, 512, fun _ _ => 0⟩ 224
      (by norm_num) (by norm_num) (by norm_num),
    letterbox_spec.2.1 512 384 224 (by norm_num) (by norm_num) (by norm_num),
    letterbox_spec.2.2.2.2.2.2.2.2.2.2 resizeStub hres rawSample id "img.png"
      rfl h8 rfl⟩

end ChestXray
